import Mathlib

/-!
Verification of the SES electrode-pair optimization engine of the
mms_prototype repository (runOptimizationLoop and its helpers).

The development shallowly embeds the contrast-RMS variant of the
controller (src/unnamed/part_002) and the final wavelet variant
(src/src/BluetoothContext.tsx, third version in the file).  JavaScript
numbers are modelled as exact rationals for the control loop, and as
real numbers for the signal conditioning functions, whose exponents
(1.5 and 2.5) and exponentials are irrational.  The stochastic draws
sqrt(qVariance) * (Math.random() - 0.5), and the activation scores
computed from the external IMU sensor stream, are modelled as
arbitrary per-iteration inputs, since both originate outside the
controller state.
-/

-- ===================================================================
-- Electrode pair enumeration
-- (runOptimizationLoop, part_002 lines 386-394; BluetoothContext.tsx
--  lines 367-374 and 1279-1287: for i in 1..9, for j in i+1..9,
--  push the pair (i, j))
-- ===================================================================

/-- The list of candidate electrode pairs produced by the nested loop
over i = 1..9 and j = i+1..9 at run start. -/
def electrodePairs : List (Nat × Nat) :=
  (List.range' 1 9).flatMap (fun i => (List.range' (i + 1) (9 - i)).map (fun j => (i, j)))

/-- Number of candidate pairs, as in the source numPairs = electrodePairs.length. -/
def numPairs : Nat := electrodePairs.length

-- ===================================================================
-- OU-driven perturbation of the pair index (part_002 lines 427-431 and
-- 490-494; BluetoothContext.tsx lines 414-417 and 1381-1385)
-- ===================================================================

/-- Perturbed pair index: floor of max of 0 and min of numPairs - 1 and
idx + noise * numPairs.  The noise argument stands for the draw
sqrt(qVariance) * (Math.random() - 0.5) of the source.  Rat.floor is
the mathematical floor function on the rationals (rat_floor_eq_floor
below), in an executable form. -/
def perturbIndex (n : Nat) (idx : ℤ) (noise : ℚ) : ℤ :=
  Rat.floor (max 0 (min ((n : ℚ) - 1) ((idx : ℚ) + noise * (n : ℚ))))

/-- Indexing electrodePairs with a perturbed index, as electrodePairs[idx]. -/
def pairAt (idx : ℤ) : Nat × Nat := electrodePairs.getD idx.toNat (0, 0)

-- ===================================================================
-- Electrode statistics tracker (part_002 lines 331-365;
-- BluetoothContext.tsx lines 1220-1262)
-- ===================================================================

/-- Per-electrode statistics record. -/
structure ElectrodeStats where
  usage : Nat
  aggregatedScore : ℚ
  scores : List ℚ
  averageScore : ℚ
deriving DecidableEq

/-- The fresh statistics record given to every electrode by
createElectrodeStatsTracker. -/
def emptyStats : ElectrodeStats :=
  { usage := 0, aggregatedScore := 0, scores := [], averageScore := 0 }

/-- The tracker of the source is a JavaScript object with the integer
keys 1..9, which iterate in ascending order; it is modelled as the
list of its values, electrode e stored at position e - 1. -/
abbrev Tracker := List ElectrodeStats

/-- Statistics of electrode e, as statsTracker[electrode]. -/
def statsOf (t : Tracker) (e : Nat) : ElectrodeStats := t.getD (e - 1) emptyStats

/-- createElectrodeStatsTracker (part_002 lines 338-349): every
electrode of 1..9 starts with usage 0, aggregatedScore 0, empty score
history and averageScore 0. -/
def createElectrodeStatsTracker : Tracker := List.replicate 9 emptyStats

/-- One electrode update of updateElectrodeStats (part_002 lines
356-364): usage increments, the score is accumulated and appended, and
averageScore is recomputed as aggregatedScore / usage guarded by
usage > 0. -/
def recordScore (s : ElectrodeStats) (score : ℚ) : ElectrodeStats :=
  let usage2 := s.usage + 1
  let agg2 := s.aggregatedScore + score
  { usage := usage2, aggregatedScore := agg2, scores := s.scores ++ [score],
    averageScore := if 0 < usage2 then agg2 / (usage2 : ℚ) else 0 }

/-- updateElectrodeStats of part_002: apply recordScore to both
electrodes of the surveyed pair (pair.forEach). -/
def updateElectrodeStats (t : Tracker) (pair : Nat × Nat) (score : ℚ) : Tracker :=
  [pair.1, pair.2].foldl
    (fun tr e => tr.set (e - 1) (recordScore (statsOf tr e) score)) t

/-- One electrode update of the wavelet-variant updateElectrodeStats
(BluetoothContext.tsx lines 1246-1261): identical except that
averageScore is computed as aggregatedScore / usage with no zero
guard. -/
def recordScoreW (s : ElectrodeStats) (score : ℚ) : ElectrodeStats :=
  let usage2 := s.usage + 1
  { usage := usage2, aggregatedScore := s.aggregatedScore + score,
    scores := s.scores ++ [score],
    averageScore := (s.aggregatedScore + score) / (usage2 : ℚ) }

/-- updateElectrodeStats of the wavelet variant. -/
def updateElectrodeStatsW (t : Tracker) (pair : Nat × Nat) (score : ℚ) : Tracker :=
  [pair.1, pair.2].foldl
    (fun tr e => tr.set (e - 1) (recordScoreW (statsOf tr e) score)) t

/-- The minimum-usage gate: Object.values(statsTracker).every
(stat => stat.usage >= thr), with thr = 7 in part_002 line 519 and
thr = 9 in BluetoothContext.tsx line 1413. -/
def allMeetMinimumUsage (t : Tracker) (thr : Nat) : Bool :=
  t.all (fun stat => decide (thr ≤ stat.usage))

/-- mean of part_002 lines 367-370: 0 for the empty list, else
sum / length. -/
def mean (l : List ℚ) : ℚ := if l.length = 0 then 0 else l.sum / (l.length : ℚ)

/-- Object.entries of the tracker: the electrode identifiers 1..9
paired with their statistics, in ascending key order. -/
def trackerEntries (t : Tracker) : List (Nat × ElectrodeStats) :=
  (List.range' 1 9).zip t

/-- Ranking of the electrodes by averageScore, descending.  The source
maps Object.entries to records of electrode and averageScore and then
applies the ES2019 stable Array.sort with comparator
b.averageScore - a.averageScore; a stable insertion sort with the
relation second components in descending order computes the same
list. -/
def rankedByAverageScore (t : Tracker) : List (Nat × ℚ) :=
  List.insertionSort (fun a b : Nat × ℚ => b.2 ≤ a.2)
    ((trackerEntries t).map (fun p => (p.1, p.2.averageScore)))

/-- Mean averageScore of the top four ranked electrodes (part_002 line 534). -/
def top4AvgOf (sorted : List (Nat × ℚ)) : ℚ := mean ((sorted.take 4).map Prod.snd)

/-- Mean averageScore of the remaining ranked electrodes (part_002 lines 535-536). -/
def restMeanOf (sorted : List (Nat × ℚ)) : ℚ := mean ((sorted.drop 4).map Prod.snd)

/-- top4Avg of part_002 computed from the tracker. -/
def top4Avg (t : Tracker) : ℚ := top4AvgOf (rankedByAverageScore t)

/-- restMean of part_002 computed from the tracker. -/
def restMean (t : Tracker) : ℚ := restMeanOf (rankedByAverageScore t)

/-- Body of the part_002 stopping check (lines 522-551), abstracted over
the already-computed gate bit and ranked list: when the gate holds and
at least 6 electrodes are ranked, declare the two top-ranked electrodes
the winner exactly when top4Avg exceeds restMean + 3.5 (the constant
k = 5.0 of line 538 is declared but unused in the source). -/
def phase2DecisionCore (gate : Bool) (sorted : List (Nat × ℚ)) : Option (Nat × Nat) :=
  if gate then
    if 6 ≤ sorted.length then
      if restMeanOf sorted + 3.5 < top4AvgOf sorted then
        match sorted.take 4 with
        | a :: b :: _ => some (a.1, b.1)
        | _ => none
      else none
    else none
  else none

/-- Stopping decision of part_002 Phase 2 (lines 515-551). -/
def phase2Decision (t : Tracker) : Option (Nat × Nat) :=
  phase2DecisionCore (allMeetMinimumUsage t 7) (rankedByAverageScore t)

/-- Body of the wavelet-variant stopping check (BluetoothContext.tsx
lines 1411-1432): once the gate (usage >= 9 for all electrodes) holds
and at least 6 electrodes are ranked, the two top-ranked electrodes are
declared the winner unconditionally; there is no score-gap test. -/
def phase2DecisionCoreW (gate : Bool) (sorted : List (Nat × ℚ)) : Option (Nat × Nat) :=
  if gate then
    if 6 ≤ sorted.length then
      match sorted.take 4 with
      | a :: b :: _ => some (a.1, b.1)
      | _ => none
    else none
  else none

/-- Stopping decision of the wavelet variant Phase 2. -/
def phase2DecisionW (t : Tracker) : Option (Nat × Nat) :=
  phase2DecisionCoreW (allMeetMinimumUsage t 9) (rankedByAverageScore t)

-- ===================================================================
-- Stimulation commands and the Phase 2 survey loop
-- (part_002 lines 486-552; BluetoothContext.tsx lines 1377-1433)
-- ===================================================================

/-- A stimulation command sent over BLE: sendCommand with the current
level and the two electrodes of the pair, enabled. -/
structure StimCommand where
  current : ℚ
  a : Nat
  b : Nat
deriving DecidableEq

/-- Per-iteration environment inputs of the Phase 2 loop: the noise
draw sqrt(qVariance) * (Math.random() - 0.5) used to perturb the pair
index, and the activation score computed from the IMU window by the
signal conditioner. -/
structure Phase2Input where
  noise : ℚ
  score : ℚ

/-- State of the Phase 2 survey loop.  The result field records the
declared winning pair once the stopping test fires (the source breaks
out of the while loop at that point, so the state freezes). -/
structure Phase2State where
  pairIndex : ℤ
  tracker : Tracker
  result : Option (Nat × Nat)
  trace : List StimCommand

/-- Phase 2 starts with a fresh tracker and the pair index left over
from Phase 1 (part_002 line 487). -/
def initPhase2State (idx : ℤ) : Phase2State :=
  { pairIndex := idx, tracker := createElectrodeStatsTracker, result := none, trace := [] }

/-- One iteration of the part_002 Phase 2 while loop (lines 489-552):
perturb the pair index, command the pair at the locked current, record
the score against both electrodes, and evaluate the stopping check. -/
def phase2Step (I : ℚ) (s : Phase2State) (inp : Phase2Input) : Phase2State :=
  if s.result.isSome then s
  else
    let idx := perturbIndex numPairs s.pairIndex inp.noise
    let pair := pairAt idx
    let tr := updateElectrodeStats s.tracker pair inp.score
    { pairIndex := idx, tracker := tr, result := phase2Decision tr,
      trace := s.trace ++ [{ current := I, a := pair.1, b := pair.2 }] }

/-- The part_002 Phase 2 loop over the iterations that occur before the
external cancellation flag is cleared, driven by the input stream. -/
def phase2Run (I : ℚ) (s : Phase2State) (inputs : List Phase2Input) : Phase2State :=
  inputs.foldl (phase2Step I) s

/-- One iteration of the wavelet-variant Phase 2 while loop
(BluetoothContext.tsx lines 1380-1433). -/
def phase2StepW (I : ℚ) (s : Phase2State) (inp : Phase2Input) : Phase2State :=
  if s.result.isSome then s
  else
    let idx := perturbIndex numPairs s.pairIndex inp.noise
    let pair := pairAt idx
    let tr := updateElectrodeStatsW s.tracker pair inp.score
    { pairIndex := idx, tracker := tr, result := phase2DecisionW tr,
      trace := s.trace ++ [{ current := I, a := pair.1, b := pair.2 }] }

/-- The wavelet-variant Phase 2 loop. -/
def phase2RunW (I : ℚ) (s : Phase2State) (inputs : List Phase2Input) : Phase2State :=
  inputs.foldl (phase2StepW I) s

-- ===================================================================
-- Phase 1 current search of part_002 (lines 396-484)
-- ===================================================================

/-- Per-iteration environment inputs of the part_002 Phase 1 loop: the
additive noise draw of the eta update, the noise draw of the pair
index perturbation, and the activation computed from the IMU window. -/
structure Phase1Input where
  etaRand : ℚ
  pairNoise : ℚ
  activation : ℚ

/-- State of the part_002 Phase 1 loop.  The locked flag records that
the loop exited through one of its break statements. -/
structure Phase1State where
  eta : ℚ
  etaEma : ℚ
  pairIndex : ℤ
  I : ℚ
  stableGradientCount : Nat
  triesAtCurrentLevel : Nat
  locked : Bool
  trace : List StimCommand

/-- Initial Phase 1 state (part_002 lines 402-413): eta = 0,
eta_ema = 0, I_k = minCurrent, stableGradientCount initialized to 3
(line 402 of the source), triesAtCurrentLevel = 0. -/
def initPhase1State (minC : ℚ) (startIdx : ℤ) : Phase1State :=
  { eta := 0, etaEma := 0, pairIndex := startIdx, I := minC,
    stableGradientCount := 3, triesAtCurrentLevel := 0, locked := false, trace := [] }

/-- One iteration of the part_002 Phase 1 for loop (lines 421-479) with
lambdaDecay = 0.4, dt = 0.1, alpha = 0.1, gradientStabilityThreshold =
15.0, consecutiveStableCount = 3.  The eta update
eta - lambdaDecay * eta * dt + sqrt(qVariance) * (random - 0.5) takes
its additive draw from the input, the gradient estimate is
the absolute value of eta_ema times the activation, and the current
increments by 1 (clamped to maxCurrent) after 3 tries with no stable
gradient, locking at maxCurrent instead when already there. -/
def phase1Step (maxC : ℚ) (s : Phase1State) (inp : Phase1Input) : Phase1State :=
  if s.locked then s
  else
    let eta := s.eta - 0.4 * s.eta * 0.1 + inp.etaRand
    let etaEma := 0.1 * eta + (1 - 0.1) * s.etaEma
    let idx := perturbIndex numPairs s.pairIndex inp.pairNoise
    let pair := pairAt idx
    let trace := s.trace ++ [{ current := s.I, a := pair.1, b := pair.2 }]
    let grad := |etaEma * inp.activation|
    let tries := s.triesAtCurrentLevel + 1
    if 15 ≤ grad then
      let stable := s.stableGradientCount + 1
      if 3 ≤ stable then
        { eta := eta, etaEma := etaEma, pairIndex := idx, I := s.I,
          stableGradientCount := stable, triesAtCurrentLevel := tries,
          locked := true, trace := trace }
      else
        { eta := eta, etaEma := etaEma, pairIndex := idx, I := s.I,
          stableGradientCount := stable, triesAtCurrentLevel := tries,
          locked := false, trace := trace }
    else
      if 3 ≤ tries then
        if maxC ≤ s.I then
          { eta := eta, etaEma := etaEma, pairIndex := idx, I := s.I,
            stableGradientCount := 0, triesAtCurrentLevel := tries,
            locked := true, trace := trace }
        else
          { eta := eta, etaEma := etaEma, pairIndex := idx, I := min maxC (s.I + 1),
            stableGradientCount := 0, triesAtCurrentLevel := 0,
            locked := false, trace := trace }
      else
        { eta := eta, etaEma := etaEma, pairIndex := idx, I := s.I,
          stableGradientCount := 0, triesAtCurrentLevel := tries,
          locked := false, trace := trace }

/-- Maximum number of Phase 1 iterations (part_002 line 400). -/
def numIterations : Nat := 100

/-- The part_002 Phase 1 loop: at most numIterations iterations, fewer
when the input stream (or the cancellation flag) ends earlier. -/
def phase1Run (minC maxC : ℚ) (startIdx : ℤ) (inputs : List Phase1Input) : Phase1State :=
  (inputs.take numIterations).foldl (phase1Step maxC) (initPhase1State minC startIdx)

/-- The core of runOptimizationLoop of part_002 (lines 372-569): when
minCurrent equals maxCurrent, Phase 1 is skipped and its state is left
at its initialization; otherwise Phase 1 runs; Phase 2 then surveys at
the current level and pair index reached by Phase 1.  The function has
no configuration validation, mirroring the source. -/
def runOptimization (minC maxC : ℚ) (startIdx : ℤ)
    (p1 : List Phase1Input) (p2 : List Phase2Input) : Phase1State × Phase2State :=
  let s1 := if minC = maxC then initPhase1State minC startIdx
            else phase1Run minC maxC startIdx p1
  (s1, phase2Run s1.I (initPhase2State s1.pairIndex) p2)

-- ===================================================================
-- Current update of the first BluetoothContext.tsx variant
-- (lines 472-473): clamp, then round
-- ===================================================================

/-- JavaScript Math.round: floor of x + 1/2. -/
def jsRound (x : ℚ) : ℤ := Rat.floor (x + 1 / 2)

/-- Current update of the first variant (BluetoothContext.tsx lines
472-473) with learningRate = 25: I_k is clamped into the configured
interval and then rounded to an integer. -/
def updateCurrentV1 (minC maxC I grad : ℚ) : ℚ :=
  (jsRound (min maxC (max minC (I + 25 * grad))) : ℚ)

-- ===================================================================
-- Signal conditioning (real-valued because of the fractional exponents)
-- ===================================================================

/-- nonlinearTransform of part_002 (lines 309-318): raise the magnitude
of each sample to the given power, preserving the sign, and scale by
the gain. -/
noncomputable def nonlinearTransform (window : List ℝ) (power gain : ℝ) : List ℝ :=
  window.map (fun v => Real.sign v * (|v| ^ power) * gain)

/-- contrastRMS of part_002 (lines 320-328): 0 for the empty window,
otherwise the maximum absolute value minus the mean absolute value.
Because every absolute value is nonnegative, folding max with initial
value 0 computes the same maximum as the spread Math.max of the
source. -/
noncomputable def contrastRMS (window : List ℝ) : ℝ :=
  if window.length = 0 then 0
  else
    let absValues := window.map (fun v => |v|)
    (absValues.foldr max 0) - absValues.sum / (absValues.length : ℝ)

/-- applyWashoutFilterToWindow of BluetoothContext.tsx (lines 308-322):
the recursive washout filter scanned over the sample window. -/
noncomputable def applyWashoutFilterToWindow (samples : List ℝ)
    (initialFiltered h dt zeta : ℝ) : List ℝ :=
  match samples with
  | [] => []
  | x :: xs =>
    let y := (1 - Real.exp (-h * dt)) * (x - zeta) + Real.exp (-h * dt) * initialFiltered
    y :: applyWashoutFilterToWindow xs y h dt zeta

/-- Average of the washout-filtered window as used at BluetoothContext.tsx
lines 430-434: 0 when the filtered list is empty. -/
noncomputable def washoutWindowScore (samples : List ℝ)
    (initialFiltered h dt zeta : ℝ) : ℝ :=
  let filtered := applyWashoutFilterToWindow samples initialFiltered h dt zeta
  if filtered.length = 0 then 0 else filtered.sum / (filtered.length : ℝ)

/-- Averages of consecutive sample pairs divided by sqrt 2, one Haar
level (BluetoothContext.tsx lines 1179-1184). -/
noncomputable def haarAvgs : List ℝ → List ℝ
  | a :: b :: rest => (a + b) / Real.sqrt 2 :: haarAvgs rest
  | _ => []

/-- Differences of consecutive sample pairs divided by sqrt 2. -/
noncomputable def haarDiffs : List ℝ → List ℝ
  | a :: b :: rest => (a - b) / Real.sqrt 2 :: haarDiffs rest
  | _ => []

/-- One level of the waveletTransform loop body (BluetoothContext.tsx
lines 1175-1187): the averages followed by the differences of the
whole coefficient array.  This models the source exactly on windows of
even length (the development only ever evaluates it on such windows;
on odd lengths the source reads past the end of the array). -/
noncomputable def haarLevel (coeffs : List ℝ) : List ℝ := haarAvgs coeffs ++ haarDiffs coeffs

/-- waveletTransform of BluetoothContext.tsx (lines 1172-1190): the
Haar level applied the given number of times. -/
noncomputable def waveletTransform (window : List ℝ) : Nat → List ℝ
  | 0 => window
  | n + 1 => waveletTransform (haarLevel window) n

/-- JavaScript Array.slice with possibly fractional bounds, which the
runtime truncates to integers; the bounds arising in
extractD3D2Energy are nonnegative, where truncation is the floor. -/
def jsSliceIdx (x : ℚ) : Nat := (Int.floor x).toNat

/-- Slice of a real-valued list between two rational indices. -/
def jsSlice (l : List ℝ) (a b : ℚ) : List ℝ := (l.take (jsSliceIdx b)).drop (jsSliceIdx a)

/-- extractD3D2Energy of BluetoothContext.tsx (lines 1192-1217): run
the wavelet transform, slice out the D3 and D2 detail bands, raise
each magnitude to the power p = 2.5, and combine the two band energies
with weights 0.7 and 0.3. -/
noncomputable def extractD3D2Energy (window : List ℝ) (levels : Nat) : ℝ :=
  let waveletCoeffs := waveletTransform window levels
  let sizeA3 : ℚ := (window.length : ℚ) / ((2 : ℚ) ^ levels)
  let sizeD3 := sizeA3
  let sizeD2 := sizeA3 * 2
  let startD3 := sizeA3
  let endD3 := startD3 + sizeD3
  let startD2 := endD3
  let endD2 := startD2 + sizeD2
  let d3Coeffs := jsSlice waveletCoeffs startD3 endD3
  let d2Coeffs := jsSlice waveletCoeffs startD2 endD2
  let energyD3 := (d3Coeffs.map (fun x => |x| ^ (2.5 : ℝ))).sum
  let energyD2 := (d2Coeffs.map (fun x => |x| ^ (2.5 : ℝ))).sum
  0.7 * energyD3 + 0.3 * energyD2

-- ===================================================================
-- Concrete runs and trackers used by the witnesses and counterexamples
-- ===================================================================

/-- A Phase 2 input stream with every activation score 0 that walks the
pair index through the pairs (1,2), (3,4), (5,6), (7,8) and (1,9), nine
iterations each, so that after 45 iterations every electrode has usage
at least 9 and the minimum-usage gate of the wavelet variant holds. -/
def zeroGateInputs : List Phase2Input :=
  List.replicate 9 { noise := 0, score := 0 }
    ++ ({ noise := 15 / 36, score := 0 } :: List.replicate 8 { noise := 0, score := 0 })
    ++ ({ noise := 11 / 36, score := 0 } :: List.replicate 8 { noise := 0, score := 0 })
    ++ ({ noise := 7 / 36, score := 0 } :: List.replicate 8 { noise := 0, score := 0 })
    ++ ({ noise := -(13 / 18), score := 0 } :: List.replicate 8 { noise := 0, score := 0 })

/-- A Phase 2 input stream that walks the pair index through (1,2),
(3,4), (5,6), (7,8) and (1,9), seven iterations each, with scores 100,
100, 0, 0 and 100: after 35 iterations every electrode has usage at
least 7 and the part_002 score-gap test succeeds. -/
def gapInputs : List Phase2Input :=
  List.replicate 7 { noise := 0, score := 100 }
    ++ ({ noise := 15 / 36, score := 100 } :: List.replicate 6 { noise := 0, score := 100 })
    ++ ({ noise := 11 / 36, score := 0 } :: List.replicate 6 { noise := 0, score := 0 })
    ++ ({ noise := 7 / 36, score := 0 } :: List.replicate 6 { noise := 0, score := 0 })
    ++ ({ noise := -(13 / 18), score := 100 } :: List.replicate 6 { noise := 0, score := 100 })

/-- A tracker in which every electrode has been sampled 7 times with
score 5. -/
def uniformTracker : Tracker :=
  List.replicate 9
    { usage := 7, aggregatedScore := 35, scores := List.replicate 7 5, averageScore := 5 }

/-- Statistics of an electrode sampled 9 times with score 50. -/
def highStats : ElectrodeStats :=
  { usage := 9, aggregatedScore := 450, scores := List.replicate 9 50, averageScore := 50 }

/-- Statistics of an electrode sampled 9 times with score 5. -/
def lowStats : ElectrodeStats :=
  { usage := 9, aggregatedScore := 45, scores := List.replicate 9 5, averageScore := 5 }

/-- A tracker realizing the Scenario C score pattern: electrodes 3 and
5 average 50, every other electrode averages 5, all with usage 9. -/
def scenarioCTracker : Tracker :=
  [lowStats, lowStats, highStats, lowStats, highStats, lowStats, lowStats, lowStats, lowStats]

-- ===================================================================
-- Helper lemmas
-- ===================================================================

set_option maxRecDepth 4000000

theorem rat_floor_eq_floor (q : ℚ) : Rat.floor q = Int.floor q := by
  rw [Rat.floor_def', Rat.floor_def]

theorem tracker_getD_set_self (l : Tracker) (n : Nat) (v d : ElectrodeStats)
    (h : n < l.length) : (l.set n v).getD n d = v := by
  rw [List.getD_eq_getD_get?, List.get?_set_eq_of_lt _ h]
  rfl

theorem tracker_getD_set_ne (l : Tracker) (m n : Nat) (v d : ElectrodeStats)
    (h : m ≠ n) : (l.set m v).getD n d = l.getD n d := by
  rw [List.getD_eq_getD_get?, List.get?_set_ne _ _ h, ← List.getD_eq_getD_get?]

theorem waveletTransform_nil (n : Nat) : waveletTransform [] n = [] := by
  induction n with
  | zero => rfl
  | succ k ih =>
    have h1 : haarLevel ([] : List ℝ) = [] := by
      simp [haarLevel, haarAvgs, haarDiffs]
    simp only [waveletTransform, h1]
    exact ih

theorem phase1Step_I_bounds (minC maxC : ℚ) (s : Phase1State) (i : Phase1Input)
    (hmin : minC ≤ maxC) (h1 : minC ≤ s.I) (h2 : s.I ≤ maxC) :
    minC ≤ (phase1Step maxC s i).I ∧ (phase1Step maxC s i).I ≤ maxC := by
  unfold phase1Step
  dsimp only
  split_ifs <;>
    first
      | exact ⟨h1, h2⟩
      | exact ⟨le_min hmin (le_trans h1 (by linarith)), min_le_left _ _⟩

theorem phase1_foldl_I_bounds (minC maxC : ℚ) (hmin : minC ≤ maxC) :
    ∀ (inputs : List Phase1Input) (s : Phase1State),
      minC ≤ s.I → s.I ≤ maxC →
      minC ≤ (inputs.foldl (phase1Step maxC) s).I
        ∧ (inputs.foldl (phase1Step maxC) s).I ≤ maxC := by
  intro inputs
  induction inputs with
  | nil => intro s h1 h2; exact ⟨h1, h2⟩
  | cons i rest ih =>
    intro s h1 h2
    have hs := phase1Step_I_bounds minC maxC s i hmin h1 h2
    exact ih (phase1Step maxC s i) hs.1 hs.2

-- ===================================================================
-- C7
-- ===================================================================

/-- C7: the electrode-pair enumeration over 9 electrodes produces
exactly 36 pairwise distinct pairs, each consisting of two identifiers
in 1..9 with the first strictly less than the second. -/
theorem electrodePairs_enumeration_spec :
    electrodePairs.length = 36 ∧ electrodePairs.Nodup ∧
      ∀ p ∈ electrodePairs, 1 ≤ p.1 ∧ p.1 < p.2 ∧ p.2 ≤ 9 := by
  decide

-- ===================================================================
-- C10
-- ===================================================================

/-- C10: for any pair index in 0..numPairs-1 and any finite noise
value, the perturbed index floor(max(0, min(numPairs - 1,
idx + noise * numPairs))) lies in 0..numPairs-1, so indexing
electrodePairs with it is always defined. -/
theorem perturbed_pair_index_in_range :
    ∀ (idx : ℤ) (noise : ℚ), 0 ≤ idx → idx ≤ 35 →
      0 ≤ perturbIndex numPairs idx noise
        ∧ perturbIndex numPairs idx noise ≤ 35
        ∧ (electrodePairs.get? (perturbIndex numPairs idx noise).toNat).isSome = true := by
  intro idx noise _ _
  have h36 : numPairs = 36 := by decide
  have hlow : 0 ≤ perturbIndex numPairs idx noise := by
    unfold perturbIndex
    rw [rat_floor_eq_floor]
    exact Int.le_floor.mpr (by push_cast; exact le_max_left _ _)
  have hhigh : perturbIndex numPairs idx noise ≤ 35 := by
    unfold perturbIndex
    rw [rat_floor_eq_floor]
    have hv : max (0 : ℚ) (min ((numPairs : ℚ) - 1) ((idx : ℚ) + noise * (numPairs : ℚ)))
        ≤ ((35 : ℤ) : ℚ) := by
      rw [h36]
      refine max_le (by norm_num) (le_trans (min_le_left _ _) (by norm_num))
    calc Int.floor (max (0 : ℚ) (min ((numPairs : ℚ) - 1) ((idx : ℚ) + noise * (numPairs : ℚ))))
        ≤ Int.floor (((35 : ℤ) : ℚ)) := Int.floor_le_floor hv
      _ = 35 := Int.floor_intCast 35
  refine ⟨hlow, hhigh, ?_⟩
  have hlt : (perturbIndex numPairs idx noise).toNat < electrodePairs.length := by
    have h1 : (perturbIndex numPairs idx noise).toNat ≤ 35 := Int.toNat_le.mpr (by exact_mod_cast hhigh)
    have h2 : electrodePairs.length = 36 := by decide
    omega
  rw [List.get?_eq_get hlt]
  rfl

/-- Witness for C10 at idx = 5 and noise = 22 / 7. -/
theorem perturbed_pair_index_in_range_witness :
    (0 : ℤ) ≤ 5 ∧ (5 : ℤ) ≤ 35 ∧
      (0 ≤ perturbIndex numPairs 5 (22 / 7)
        ∧ perturbIndex numPairs 5 (22 / 7) ≤ 35
        ∧ (electrodePairs.get? (perturbIndex numPairs 5 (22 / 7)).toNat).isSome = true) :=
  ⟨by decide, by decide, perturbed_pair_index_in_range 5 (22 / 7) (by decide) (by decide)⟩

-- ===================================================================
-- C8
-- ===================================================================

/-- C8: on the empty sensor window, every scoring pipeline returns the
neutral score 0 instead of failing: contrastRMS (raw and composed with
nonlinearTransform), the wavelet band-energy extractD3D2Energy at any
number of levels, and the washout-filter average; the washout filter
itself returns the empty window. -/
theorem empty_window_scores_zero :
    contrastRMS [] = 0
      ∧ (∀ power gain : ℝ, contrastRMS (nonlinearTransform [] power gain) = 0)
      ∧ (∀ levels : Nat, extractD3D2Energy [] levels = 0)
      ∧ (∀ y0 hw dtw zw : ℝ, applyWashoutFilterToWindow [] y0 hw dtw zw = []
          ∧ washoutWindowScore [] y0 hw dtw zw = 0) := by
  refine ⟨by simp [contrastRMS], ?_, ?_, ?_⟩
  · intro power gain
    simp [contrastRMS, nonlinearTransform]
  · intro levels
    simp [extractD3D2Energy, waveletTransform_nil, jsSlice]
  · intro y0 hw dtw zw
    exact ⟨rfl, by simp [washoutWindowScore, applyWashoutFilterToWindow]⟩

-- ===================================================================
-- C3
-- ===================================================================

/-- C3 (amended): in the part_002 Phase 1 loop the current level stays
in the configured interval for every configuration with minCurrent at
most maxCurrent, and the clamp-then-round update of the first variant
stays in the interval whenever minCurrent and maxCurrent are integers
(the rounding happens after the clamp, so fractional bounds can be
exceeded, see the counterexample). -/
theorem phase1_current_level_bounds :
    (∀ (minC maxC : ℚ) (startIdx : ℤ) (inputs : List Phase1Input),
        minC ≤ maxC →
        minC ≤ (phase1Run minC maxC startIdx inputs).I
          ∧ (phase1Run minC maxC startIdx inputs).I ≤ maxC) ∧
    (∀ (m M : ℤ) (I grad : ℚ), (m : ℚ) ≤ (M : ℚ) →
        (m : ℚ) ≤ updateCurrentV1 (m : ℚ) (M : ℚ) I grad
          ∧ updateCurrentV1 (m : ℚ) (M : ℚ) I grad ≤ (M : ℚ)) := by
  constructor
  · intro minC maxC startIdx inputs hmin
    exact phase1_foldl_I_bounds minC maxC hmin (inputs.take numIterations)
      (initPhase1State minC startIdx) le_rfl hmin
  · intro m M I grad h
    unfold updateCurrentV1 jsRound
    rw [rat_floor_eq_floor]
    have hxm : (m : ℚ) ≤ min (M : ℚ) (max (m : ℚ) (I + 25 * grad)) :=
      le_min h (le_max_left _ _)
    have hxM : min (M : ℚ) (max (m : ℚ) (I + 25 * grad)) ≤ (M : ℚ) := min_le_left _ _
    constructor
    · exact_mod_cast Int.cast_le.mpr (Int.le_floor.mpr (by linarith))
    · have hup : Int.floor (min (M : ℚ) (max (m : ℚ) (I + 25 * grad)) + 1 / 2) ≤ M := by
        rw [← Int.lt_add_one_iff]
        exact Int.floor_lt.mpr (by push_cast; linarith)
      exact_mod_cast Int.cast_le.mpr hup

/-- Counterexample for C3 as stated: with the fractional configuration
minCurrent = 0 and maxCurrent = 1/2 (a valid configuration with
minCurrent at most maxCurrent) and gradient estimate 1/50, the first
variant update clamps 0 + 25 * (1/50) to 1/2 and then rounds up to 1,
leaving the configured interval. -/
theorem updateCurrentV1_fractional_bounds_violation :
    (0 : ℚ) ≤ 1 / 2 ∧ updateCurrentV1 0 (1 / 2) 0 (1 / 50) = 1
      ∧ ¬ updateCurrentV1 0 (1 / 2) 0 (1 / 50) ≤ 1 / 2 := by
  refine ⟨by norm_num, by with_unfolding_all decide, by with_unfolding_all decide⟩

/-- Witness for C3 at the configuration 1..15. -/
theorem phase1_current_level_bounds_witness :
    ((1 : ℚ) ≤ 15 ∧
      1 ≤ (phase1Run 1 15 0 [{ etaRand := 0, pairNoise := 0, activation := 0 }]).I
      ∧ (phase1Run 1 15 0 [{ etaRand := 0, pairNoise := 0, activation := 0 }]).I ≤ 15) ∧
    (((1 : ℤ) : ℚ) ≤ ((15 : ℤ) : ℚ) ∧
      ((1 : ℤ) : ℚ) ≤ updateCurrentV1 ((1 : ℤ) : ℚ) ((15 : ℤ) : ℚ) 3 1
      ∧ updateCurrentV1 ((1 : ℤ) : ℚ) ((15 : ℤ) : ℚ) 3 1 ≤ ((15 : ℤ) : ℚ)) :=
  ⟨⟨by norm_num,
    (phase1_current_level_bounds.1 1 15 0 _ (by norm_num)).1,
    (phase1_current_level_bounds.1 1 15 0 _ (by norm_num)).2⟩,
   ⟨by norm_num,
    (phase1_current_level_bounds.2 1 15 3 1 (by norm_num)).1,
    (phase1_current_level_bounds.2 1 15 3 1 (by norm_num)).2⟩⟩

-- ===================================================================
-- C6
-- ===================================================================

theorem phase2Step_trace_current (I : ℚ) (s : Phase2State) (i : Phase2Input)
    (h : ∀ c ∈ s.trace, c.current = I) :
    ∀ c ∈ (phase2Step I s i).trace, c.current = I := by
  unfold phase2Step
  by_cases hres : s.result.isSome = true
  · rw [if_pos hres]; exact h
  · rw [if_neg hres]
    dsimp only
    intro c hc
    rcases List.mem_append.mp hc with h1 | h2
    · exact h c h1
    · rw [List.mem_singleton.mp h2]

theorem phase2Run_trace_current (I : ℚ) :
    ∀ (inputs : List Phase2Input) (s : Phase2State),
      (∀ c ∈ s.trace, c.current = I) →
      ∀ c ∈ (phase2Run I s inputs).trace, c.current = I := by
  intro inputs
  induction inputs with
  | nil => intro s h; exact h
  | cons i rest ih =>
    intro s h
    exact ih (phase2Step I s i) (phase2Step_trace_current I s i h)

/-- C6: when minCurrent equals maxCurrent, Phase 1 executes zero
iterations (its state stays at initialization, no stimulation command
is traced) and Phase 2 proceeds with every command at the configured
current level. -/
theorem phase1_skipped_when_current_fixed :
    ∀ (minC maxC : ℚ) (startIdx : ℤ) (p1 : List Phase1Input) (p2 : List Phase2Input),
      minC = maxC →
      (runOptimization minC maxC startIdx p1 p2).1 = initPhase1State minC startIdx
      ∧ (runOptimization minC maxC startIdx p1 p2).1.trace = []
      ∧ (runOptimization minC maxC startIdx p1 p2).1.I = minC
      ∧ ∀ c ∈ (runOptimization minC maxC startIdx p1 p2).2.trace, c.current = minC := by
  intro minC maxC startIdx p1 p2 h
  subst h
  have h1 : (runOptimization minC minC startIdx p1 p2).1 = initPhase1State minC startIdx := by
    simp [runOptimization]
  refine ⟨h1, by rw [h1]; rfl, by rw [h1]; rfl, ?_⟩
  have h2 : (runOptimization minC minC startIdx p1 p2).2
      = phase2Run minC (initPhase2State startIdx) p2 := by
    simp [runOptimization, initPhase1State]
  rw [h2]
  exact phase2Run_trace_current minC p2 (initPhase2State startIdx)
    (by intro c hc; simp [initPhase2State] at hc)

/-- Witness for C6 at minCurrent = maxCurrent = 8. -/
theorem phase1_skipped_when_current_fixed_witness :
    (8 : ℚ) = 8 ∧
      ((runOptimization 8 8 0 [] [{ noise := 0, score := 1 }]).1 = initPhase1State 8 0
        ∧ (runOptimization 8 8 0 [] [{ noise := 0, score := 1 }]).1.trace = []
        ∧ (runOptimization 8 8 0 [] [{ noise := 0, score := 1 }]).1.I = 8
        ∧ ∀ c ∈ (runOptimization 8 8 0 [] [{ noise := 0, score := 1 }]).2.trace,
            c.current = 8) :=
  ⟨rfl, phase1_skipped_when_current_fixed 8 8 0 [] [{ noise := 0, score := 1 }] rfl⟩

-- ===================================================================
-- C9
-- ===================================================================

theorem phase1Step_trace_first (maxC : ℚ) (s : Phase1State) (i : Phase1Input)
    (hl : s.locked = false) (ht : s.trace = []) :
    ∃ a b, (phase1Step maxC s i).trace = [{ current := s.I, a := a, b := b }] := by
  refine ⟨(pairAt (perturbIndex numPairs s.pairIndex i.pairNoise)).1,
          (pairAt (perturbIndex numPairs s.pairIndex i.pairNoise)).2, ?_⟩
  unfold phase1Step
  rw [if_neg (by rw [hl]; exact Bool.false_ne_true)]
  dsimp only
  split_ifs <;> simp [ht]

theorem phase1Step_trace_head (maxC : ℚ) (s : Phase1State) (i : Phase1Input)
    (c : StimCommand) (h : s.trace.head? = some c) :
    ((phase1Step maxC s i).trace).head? = some c := by
  obtain ⟨a, tr, htr⟩ : ∃ a tr, s.trace = a :: tr := by
    cases hs : s.trace with
    | nil => rw [hs] at h; simp at h
    | cons a tr => exact ⟨a, tr, rfl⟩
  rw [htr] at h
  unfold phase1Step
  by_cases hl : s.locked = true
  · rw [if_pos hl, htr]; exact h
  · rw [if_neg hl]
    dsimp only
    split_ifs <;> simp_all

theorem phase1_foldl_trace_head (maxC : ℚ) :
    ∀ (inputs : List Phase1Input) (s : Phase1State) (c : StimCommand),
      s.trace.head? = some c →
      ((inputs.foldl (phase1Step maxC) s).trace).head? = some c := by
  intro inputs
  induction inputs with
  | nil => intro s c h; exact h
  | cons i rest ih =>
    intro s c h
    exact ih (phase1Step maxC s i) c (phase1Step_trace_head maxC s i c h)

/-- C9 (amended): runOptimizationLoop performs no configuration
validation; with maxCurrent strictly below minCurrent the run is not
rejected, Phase 1 executes and its first traced stimulation command is
issued at current level minCurrent (outside the configured interval). -/
theorem invalid_config_not_rejected :
    ∀ (minC maxC : ℚ) (startIdx : ℤ) (inp : Phase1Input) (rest : List Phase1Input)
      (p2 : List Phase2Input),
      maxC < minC →
      ∃ a b, ((runOptimization minC maxC startIdx (inp :: rest) p2).1.trace).head?
          = some { current := minC, a := a, b := b } := by
  intro minC maxC startIdx inp rest p2 h
  have hne : ¬ (minC = maxC) := by
    intro he
    rw [he] at h
    exact lt_irrefl _ h
  have h1 : (runOptimization minC maxC startIdx (inp :: rest) p2).1
      = phase1Run minC maxC startIdx (inp :: rest) := by
    simp [runOptimization, hne]
  rw [h1]
  unfold phase1Run
  rw [show (inp :: rest).take numIterations = inp :: rest.take 99 from rfl]
  rw [List.foldl_cons]
  obtain ⟨a, b, hab⟩ :=
    phase1Step_trace_first maxC (initPhase1State minC startIdx) inp rfl rfl
  refine ⟨a, b, ?_⟩
  apply phase1_foldl_trace_head
  rw [hab]
  rfl

/-- Counterexample for C9 as stated: the invocation with minCurrent = 5
strictly above maxCurrent = 3 is not rejected; the run starts and its
first Phase 1 iteration issues the stimulation command for pair (1, 2)
at 5 mA. -/
theorem invalid_config_run_issues_command :
    (3 : ℚ) < 5 ∧
      (runOptimization 5 3 0 [{ etaRand := 0, pairNoise := 0, activation := 0 }] []).1.trace
        = [{ current := 5, a := 1, b := 2 }] := by
  refine ⟨by norm_num, by with_unfolding_all decide⟩

/-- Witness for C9 at minCurrent = 5, maxCurrent = 3. -/
theorem invalid_config_not_rejected_witness :
    (3 : ℚ) < 5 ∧
      ∃ a b, ((runOptimization 5 3 0 [{ etaRand := 0, pairNoise := 0, activation := 0 }] []).1.trace).head?
          = some { current := 5, a := a, b := b } :=
  ⟨by norm_num,
   invalid_config_not_rejected 5 3 0 { etaRand := 0, pairNoise := 0, activation := 0 } [] []
     (by norm_num)⟩

-- ===================================================================
-- C5
-- ===================================================================

theorem recordScore_consistent (s : ElectrodeStats) (score : ℚ) :
    0 < (recordScore s score).usage ∧
      (recordScore s score).averageScore
        = (if (recordScore s score).usage = 0 then 0
           else (recordScore s score).aggregatedScore / ((recordScore s score).usage : ℚ)) := by
  unfold recordScore
  refine ⟨Nat.succ_pos _, ?_⟩
  dsimp only
  rw [if_pos (Nat.succ_pos _), if_neg (Nat.succ_ne_zero _)]

theorem recordScoreW_consistent (s : ElectrodeStats) (score : ℚ) :
    0 < (recordScoreW s score).usage ∧
      (recordScoreW s score).averageScore
        = (if (recordScoreW s score).usage = 0 then 0
           else (recordScoreW s score).aggregatedScore / ((recordScoreW s score).usage : ℚ)) := by
  unfold recordScoreW
  refine ⟨Nat.succ_pos _, ?_⟩
  dsimp only
  rw [if_neg (Nat.succ_ne_zero _)]

theorem updateElectrodeStats_eq_set (t : Tracker) (a b : Nat) (score : ℚ) :
    updateElectrodeStats t (a, b) score
      = (t.set (a - 1) (recordScore (statsOf t a) score)).set (b - 1)
          (recordScore (statsOf (t.set (a - 1) (recordScore (statsOf t a) score)) b) score) := by
  rfl

theorem updateElectrodeStatsW_eq_set (t : Tracker) (a b : Nat) (score : ℚ) :
    updateElectrodeStatsW t (a, b) score
      = (t.set (a - 1) (recordScoreW (statsOf t a) score)).set (b - 1)
          (recordScoreW (statsOf (t.set (a - 1) (recordScoreW (statsOf t a) score)) b) score) := by
  rfl

/-- C5: after every updateElectrodeStats call (in both the contrast-RMS
and the wavelet variant), each of the two electrodes of the recorded
pair has positive usage and averageScore equal to aggregatedScore
divided by usage (with the convention that averageScore is 0 when
usage is 0), and the statistics of every other electrode are
unchanged. -/
theorem updateElectrodeStats_average_consistent :
    ∀ (t : Tracker) (a b : Nat) (score : ℚ),
      1 ≤ a → a ≤ t.length → 1 ≤ b → b ≤ t.length →
      (∀ e, e = a ∨ e = b →
        (0 < (statsOf (updateElectrodeStats t (a, b) score) e).usage
          ∧ (statsOf (updateElectrodeStats t (a, b) score) e).averageScore
              = (if (statsOf (updateElectrodeStats t (a, b) score) e).usage = 0 then 0
                 else (statsOf (updateElectrodeStats t (a, b) score) e).aggregatedScore
                        / ((statsOf (updateElectrodeStats t (a, b) score) e).usage : ℚ)))
        ∧ (0 < (statsOf (updateElectrodeStatsW t (a, b) score) e).usage
          ∧ (statsOf (updateElectrodeStatsW t (a, b) score) e).averageScore
              = (if (statsOf (updateElectrodeStatsW t (a, b) score) e).usage = 0 then 0
                 else (statsOf (updateElectrodeStatsW t (a, b) score) e).aggregatedScore
                        / ((statsOf (updateElectrodeStatsW t (a, b) score) e).usage : ℚ))))
      ∧ (∀ e, 1 ≤ e → e ≠ a → e ≠ b →
          statsOf (updateElectrodeStats t (a, b) score) e = statsOf t e
          ∧ statsOf (updateElectrodeStatsW t (a, b) score) e = statsOf t e) := by
  intro t a b score ha1 ha2 hb1 hb2
  have hbl : b - 1 < ((t.set (a - 1) (recordScore (statsOf t a) score))).length := by
    rw [List.length_set]; omega
  have hblW : b - 1 < ((t.set (a - 1) (recordScoreW (statsOf t a) score))).length := by
    rw [List.length_set]; omega
  constructor
  · intro e he
    have heb : statsOf (updateElectrodeStats t (a, b) score) b
        = recordScore (statsOf (t.set (a - 1) (recordScore (statsOf t a) score)) b) score := by
      rw [updateElectrodeStats_eq_set]
      unfold statsOf
      exact tracker_getD_set_self _ _ _ _ hbl
    have hebW : statsOf (updateElectrodeStatsW t (a, b) score) b
        = recordScoreW (statsOf (t.set (a - 1) (recordScoreW (statsOf t a) score)) b) score := by
      rw [updateElectrodeStatsW_eq_set]
      unfold statsOf
      exact tracker_getD_set_self _ _ _ _ hblW
    rcases he with rfl | rfl
    · by_cases hab : e = b
      · subst hab
        rw [heb, hebW]
        exact ⟨recordScore_consistent _ _, recordScoreW_consistent _ _⟩
      · have hne : b - 1 ≠ e - 1 := by omega
        have hea : statsOf (updateElectrodeStats t (e, b) score) e
            = recordScore (statsOf t e) score := by
          rw [updateElectrodeStats_eq_set]
          unfold statsOf
          rw [tracker_getD_set_ne _ _ _ _ _ hne]
          exact tracker_getD_set_self _ _ _ _ (by omega)
        have heaW : statsOf (updateElectrodeStatsW t (e, b) score) e
            = recordScoreW (statsOf t e) score := by
          rw [updateElectrodeStatsW_eq_set]
          unfold statsOf
          rw [tracker_getD_set_ne _ _ _ _ _ hne]
          exact tracker_getD_set_self _ _ _ _ (by omega)
        rw [hea, heaW]
        exact ⟨recordScore_consistent _ _, recordScoreW_consistent _ _⟩
    · rw [heb, hebW]
      exact ⟨recordScore_consistent _ _, recordScoreW_consistent _ _⟩
  · intro e he1 hea heb
    have h1 : e - 1 ≠ a - 1 := by omega
    have h2 : e - 1 ≠ b - 1 := by omega
    constructor
    · rw [updateElectrodeStats_eq_set]
      unfold statsOf
      rw [tracker_getD_set_ne _ _ _ _ _ (Ne.symm h2), tracker_getD_set_ne _ _ _ _ _ (Ne.symm h1)]
    · rw [updateElectrodeStatsW_eq_set]
      unfold statsOf
      rw [tracker_getD_set_ne _ _ _ _ _ (Ne.symm h2), tracker_getD_set_ne _ _ _ _ _ (Ne.symm h1)]

/-- Witness for C5: recording score 7 for the pair (3, 5) on the fresh
tracker keeps electrode 3 consistent and leaves electrode 1 unchanged. -/
theorem updateElectrodeStats_average_consistent_witness :
    ((1 ≤ 3 ∧ 3 ≤ createElectrodeStatsTracker.length
        ∧ 1 ≤ 5 ∧ 5 ≤ createElectrodeStatsTracker.length) ∧
      (0 < (statsOf (updateElectrodeStats createElectrodeStatsTracker (3, 5) 7) 3).usage
        ∧ (statsOf (updateElectrodeStats createElectrodeStatsTracker (3, 5) 7) 3).averageScore
            = (if (statsOf (updateElectrodeStats createElectrodeStatsTracker (3, 5) 7) 3).usage = 0
               then 0
               else (statsOf (updateElectrodeStats createElectrodeStatsTracker (3, 5) 7) 3).aggregatedScore
                      / ((statsOf (updateElectrodeStats createElectrodeStatsTracker (3, 5) 7) 3).usage : ℚ)))) ∧
      statsOf (updateElectrodeStats createElectrodeStatsTracker (3, 5) 7) 1
        = statsOf createElectrodeStatsTracker 1 :=
  ⟨⟨⟨by decide, by decide, by decide, by decide⟩,
    (((updateElectrodeStats_average_consistent createElectrodeStatsTracker 3 5 7
        (by decide) (by decide) (by decide) (by decide)).1 3 (Or.inl rfl)).1)⟩,
   (((updateElectrodeStats_average_consistent createElectrodeStatsTracker 3 5 7
        (by decide) (by decide) (by decide) (by decide)).2 1
        (by decide) (by decide) (by decide)).1)⟩

-- ===================================================================
-- Ranking lemmas
-- ===================================================================

theorem rankedByAverageScore_length (t : Tracker) (h : t.length = 9) :
    (rankedByAverageScore t).length = 9 := by
  unfold rankedByAverageScore
  rw [(List.perm_insertionSort _ _).length_eq, List.length_map]
  unfold trackerEntries
  rw [List.length_zip, h]
  simp

theorem mem_ranked_avg (t : Tracker) (x : Nat × ℚ) (hx : x ∈ rankedByAverageScore t) :
    ∃ s ∈ t, x.2 = s.averageScore := by
  unfold rankedByAverageScore at hx
  rw [(List.perm_insertionSort _ _).mem_iff] at hx
  obtain ⟨p, hp, rfl⟩ := List.mem_map.mp hx
  exact ⟨p.2, (List.mem_zip hp).2, rfl⟩

theorem top4AvgOf_zero (sorted : List (Nat × ℚ)) (h : ∀ x ∈ sorted, x.2 = 0) :
    top4AvgOf sorted = 0 := by
  unfold top4AvgOf mean
  have hz : ((sorted.take 4).map Prod.snd).sum = 0 := by
    refine List.sum_eq_zero ?_
    intro q hq
    obtain ⟨x, hx, rfl⟩ := List.mem_map.mp hq
    exact h x (List.take_subset _ _ hx)
  rw [hz]
  split_ifs <;> simp

theorem restMeanOf_zero (sorted : List (Nat × ℚ)) (h : ∀ x ∈ sorted, x.2 = 0) :
    restMeanOf sorted = 0 := by
  unfold restMeanOf mean
  have hz : ((sorted.drop 4).map Prod.snd).sum = 0 := by
    refine List.sum_eq_zero ?_
    intro q hq
    obtain ⟨x, hx, rfl⟩ := List.mem_map.mp hq
    exact h x (List.drop_subset _ _ hx)
  rw [hz]
  split_ifs <;> simp

-- ===================================================================
-- Stopping-decision lemmas
-- ===================================================================

theorem phase2Decision_isSome_gate (t : Tracker)
    (h : (phase2Decision t).isSome = true) : allMeetMinimumUsage t 7 = true := by
  by_cases hg : allMeetMinimumUsage t 7 = true
  · exact hg
  · exfalso
    have hg2 : allMeetMinimumUsage t 7 = false := by
      cases hb : allMeetMinimumUsage t 7
      · rfl
      · exact absurd hb hg
    unfold phase2Decision phase2DecisionCore at h
    rw [hg2] at h
    simp at h

theorem phase2DecisionW_isSome_gate (t : Tracker)
    (h : (phase2DecisionW t).isSome = true) : allMeetMinimumUsage t 9 = true := by
  by_cases hg : allMeetMinimumUsage t 9 = true
  · exact hg
  · exfalso
    have hg2 : allMeetMinimumUsage t 9 = false := by
      cases hb : allMeetMinimumUsage t 9
      · rfl
      · exact absurd hb hg
    unfold phase2DecisionW phase2DecisionCoreW at h
    rw [hg2] at h
    simp at h

theorem phase2Decision_zero_avg (t : Tracker) (h : ∀ s ∈ t, s.averageScore = 0) :
    phase2Decision t = none := by
  have hz : ∀ x ∈ rankedByAverageScore t, x.2 = 0 := by
    intro x hx
    obtain ⟨s, hs, he⟩ := mem_ranked_avg t x hx
    rw [he, h s hs]
  have hcond : ¬ (restMeanOf (rankedByAverageScore t) + 3.5
      < top4AvgOf (rankedByAverageScore t)) := by
    rw [restMeanOf_zero _ hz, top4AvgOf_zero _ hz]
    norm_num
  unfold phase2Decision phase2DecisionCore
  split_ifs <;> rfl

-- ===================================================================
-- Zero-score run lemmas
-- ===================================================================

theorem recordScore_zero (s : ElectrodeStats) (h : s.aggregatedScore = 0) :
    (recordScore s 0).aggregatedScore = 0 ∧ (recordScore s 0).averageScore = 0 := by
  unfold recordScore
  dsimp only
  rw [h]
  refine ⟨by ring, ?_⟩
  rw [if_pos (Nat.succ_pos _)]
  simp

theorem statsOf_zero (t : Tracker) (e : Nat)
    (h : ∀ s ∈ t, s.aggregatedScore = 0 ∧ s.averageScore = 0) :
    (statsOf t e).aggregatedScore = 0 ∧ (statsOf t e).averageScore = 0 := by
  unfold statsOf
  by_cases hlt : e - 1 < t.length
  · rw [List.getD_eq_getElem _ _ hlt]
    exact h _ (List.getElem_mem hlt)
  · rw [List.getD_eq_default _ _ (le_of_not_lt hlt)]
    exact ⟨rfl, rfl⟩

theorem updateElectrodeStats_zero_preserves (t : Tracker) (pair : Nat × Nat)
    (h : ∀ s ∈ t, s.aggregatedScore = 0 ∧ s.averageScore = 0) :
    ∀ s ∈ updateElectrodeStats t pair 0,
      s.aggregatedScore = 0 ∧ s.averageScore = 0 := by
  have h1 : ∀ s ∈ t.set (pair.1 - 1) (recordScore (statsOf t pair.1) 0),
      s.aggregatedScore = 0 ∧ s.averageScore = 0 := by
    intro s hs
    rcases List.mem_or_eq_of_mem_set hs with hs1 | rfl
    · exact h s hs1
    · exact recordScore_zero _ (statsOf_zero t _ h).1
  intro s hs
  rw [show updateElectrodeStats t pair 0
      = (t.set (pair.1 - 1) (recordScore (statsOf t pair.1) 0)).set (pair.2 - 1)
          (recordScore (statsOf (t.set (pair.1 - 1) (recordScore (statsOf t pair.1) 0)) pair.2) 0)
    from rfl] at hs
  rcases List.mem_or_eq_of_mem_set hs with hs1 | rfl
  · exact h1 s hs1
  · exact recordScore_zero _ (statsOf_zero _ _ h1).1

theorem phase2Run_zero_scores (I : ℚ) :
    ∀ (inputs : List Phase2Input) (s : Phase2State),
      (∀ i ∈ inputs, i.score = 0) →
      s.result = none →
      (∀ x ∈ s.tracker, x.aggregatedScore = 0 ∧ x.averageScore = 0) →
      (phase2Run I s inputs).result = none := by
  intro inputs
  induction inputs with
  | nil => intro s _ hres _; exact hres
  | cons i rest ih =>
    intro s hin hres htr
    have hi0 : i.score = 0 := hin i (List.mem_cons_self i rest)
    have hstep : phase2Step I s i
        = { pairIndex := perturbIndex numPairs s.pairIndex i.noise,
            tracker := updateElectrodeStats s.tracker
              (pairAt (perturbIndex numPairs s.pairIndex i.noise)) i.score,
            result := phase2Decision (updateElectrodeStats s.tracker
              (pairAt (perturbIndex numPairs s.pairIndex i.noise)) i.score),
            trace := s.trace
              ++ [{ current := I,
                    a := (pairAt (perturbIndex numPairs s.pairIndex i.noise)).1,
                    b := (pairAt (perturbIndex numPairs s.pairIndex i.noise)).2 }] } := by
      unfold phase2Step
      rw [if_neg (by rw [hres]; simp)]
    have htr2 : ∀ x ∈ (phase2Step I s i).tracker,
        x.aggregatedScore = 0 ∧ x.averageScore = 0 := by
      rw [hstep]
      dsimp only
      rw [hi0]
      exact updateElectrodeStats_zero_preserves _ _ htr
    have hres2 : (phase2Step I s i).result = none := by
      rw [hstep]
      dsimp only
      rw [hi0]
      exact phase2Decision_zero_avg _
        (fun x hx => (updateElectrodeStats_zero_preserves _ _ htr x hx).2)
    exact ih (phase2Step I s i) (fun j hj => hin j (List.mem_cons_of_mem i hj)) hres2 htr2

-- ===================================================================
-- Gate invariant of the survey loops
-- ===================================================================

theorem phase2Step_gate_invariant (I : ℚ) (s : Phase2State) (i : Phase2Input)
    (h : s.result.isSome = true → allMeetMinimumUsage s.tracker 7 = true) :
    (phase2Step I s i).result.isSome = true →
      allMeetMinimumUsage (phase2Step I s i).tracker 7 = true := by
  unfold phase2Step
  by_cases hres : s.result.isSome = true
  · rw [if_pos hres]; exact h
  · rw [if_neg hres]
    dsimp only
    intro hsome
    exact phase2Decision_isSome_gate _ hsome

theorem phase2Run_gate_invariant (I : ℚ) :
    ∀ (inputs : List Phase2Input) (s : Phase2State),
      (s.result.isSome = true → allMeetMinimumUsage s.tracker 7 = true) →
      ((phase2Run I s inputs).result.isSome = true →
        allMeetMinimumUsage (phase2Run I s inputs).tracker 7 = true) := by
  intro inputs
  induction inputs with
  | nil => intro s h; exact h
  | cons i rest ih =>
    intro s h
    exact ih (phase2Step I s i) (phase2Step_gate_invariant I s i h)

theorem phase2StepW_gate_invariant (I : ℚ) (s : Phase2State) (i : Phase2Input)
    (h : s.result.isSome = true → allMeetMinimumUsage s.tracker 9 = true) :
    (phase2StepW I s i).result.isSome = true →
      allMeetMinimumUsage (phase2StepW I s i).tracker 9 = true := by
  unfold phase2StepW
  by_cases hres : s.result.isSome = true
  · rw [if_pos hres]; exact h
  · rw [if_neg hres]
    dsimp only
    intro hsome
    exact phase2DecisionW_isSome_gate _ hsome

theorem phase2RunW_gate_invariant (I : ℚ) :
    ∀ (inputs : List Phase2Input) (s : Phase2State),
      (s.result.isSome = true → allMeetMinimumUsage s.tracker 9 = true) →
      ((phase2RunW I s inputs).result.isSome = true →
        allMeetMinimumUsage (phase2RunW I s inputs).tracker 9 = true) := by
  intro inputs
  induction inputs with
  | nil => intro s h; exact h
  | cons i rest ih =>
    intro s h
    exact ih (phase2StepW I s i) (phase2StepW_gate_invariant I s i h)

-- ===================================================================
-- C2
-- ===================================================================

/-- C2: in both Phase 2 variants, whenever the survey loop has declared
a winning pair, every electrode of the tracker meets the configured
minimum-usage threshold (7 in the contrast-RMS variant, 9 in the
wavelet variant); no winner is ever declared before the gate holds. -/
theorem winner_requires_minimum_usage :
    (∀ (I : ℚ) (startIdx : ℤ) (inputs : List Phase2Input),
        (phase2Run I (initPhase2State startIdx) inputs).result.isSome = true →
        allMeetMinimumUsage (phase2Run I (initPhase2State startIdx) inputs).tracker 7 = true) ∧
    (∀ (I : ℚ) (startIdx : ℤ) (inputs : List Phase2Input),
        (phase2RunW I (initPhase2State startIdx) inputs).result.isSome = true →
        allMeetMinimumUsage (phase2RunW I (initPhase2State startIdx) inputs).tracker 9 = true) := by
  constructor
  · intro I startIdx inputs
    exact phase2Run_gate_invariant I inputs (initPhase2State startIdx)
      (by intro h; simp [initPhase2State] at h)
  · intro I startIdx inputs
    exact phase2RunW_gate_invariant I inputs (initPhase2State startIdx)
      (by intro h; simp [initPhase2State] at h)

/-- Witness for C2: a 35-iteration contrast-RMS run that declares a
winner, and a 45-iteration wavelet run that declares a winner; in both
the final tracker meets the respective minimum-usage gate. -/
theorem winner_requires_minimum_usage_witness :
    ((phase2Run 8 (initPhase2State 0) gapInputs).result.isSome = true
      ∧ allMeetMinimumUsage (phase2Run 8 (initPhase2State 0) gapInputs).tracker 7 = true) ∧
    ((phase2RunW 8 (initPhase2State 0) zeroGateInputs).result.isSome = true
      ∧ allMeetMinimumUsage (phase2RunW 8 (initPhase2State 0) zeroGateInputs).tracker 9 = true) :=
  ⟨⟨by with_unfolding_all decide,
    winner_requires_minimum_usage.1 8 0 gapInputs (by with_unfolding_all decide)⟩,
   ⟨by with_unfolding_all decide,
    winner_requires_minimum_usage.2 8 0 zeroGateInputs (by with_unfolding_all decide)⟩⟩

-- ===================================================================
-- C1
-- ===================================================================

/-- C1 (amended): in the contrast-RMS variant (part_002), once the
minimum-usage gate holds a winner is declared exactly when top4Avg
exceeds restMean + 3.5, and a survey whose activation scores are all 0
never declares a winner, continuing past the gate.  (The final wavelet
variant drops the score-gap test: see the counterexample, where an
all-zero run declares a winner at the gate.) -/
theorem phase2_score_gap_characterization :
    (∀ t : Tracker, t.length = 9 → allMeetMinimumUsage t 7 = true →
        ((phase2Decision t).isSome = true ↔ restMean t + 3.5 < top4Avg t)) ∧
    (∀ (I : ℚ) (startIdx : ℤ) (inputs : List Phase2Input),
        (∀ i ∈ inputs, i.score = 0) →
        (phase2Run I (initPhase2State startIdx) inputs).result = none) := by
  constructor
  · intro t hlen hgate
    have h9 : (rankedByAverageScore t).length = 9 := rankedByAverageScore_length t hlen
    obtain ⟨a, b, r, hr⟩ : ∃ a b r, rankedByAverageScore t = a :: b :: r := by
      rcases hL : rankedByAverageScore t with _ | ⟨a, _ | ⟨b, r⟩⟩
      · rw [hL] at h9; simp at h9
      · rw [hL] at h9; simp at h9
      · exact ⟨a, b, r, rfl⟩
    unfold phase2Decision phase2DecisionCore
    rw [hgate, if_pos rfl, if_pos (by rw [h9]; norm_num)]
    unfold restMean top4Avg
    by_cases hgap : restMeanOf (rankedByAverageScore t) + 3.5
        < top4AvgOf (rankedByAverageScore t)
    · rw [if_pos hgap, hr]
      rw [show (a :: b :: r).take 4 = a :: b :: r.take 2 from rfl]
      rw [hr] at hgap
      exact iff_of_true rfl hgap
    · rw [if_neg hgap]
      exact iff_of_false (by simp) hgap
  · intro I startIdx inputs hin
    refine phase2Run_zero_scores I inputs (initPhase2State startIdx) hin rfl ?_
    intro x hx
    have : x = emptyStats := List.eq_of_mem_replicate hx
    rw [this]
    exact ⟨rfl, rfl⟩

/-- Witness for C1: the uniform tracker (all electrodes at usage 7,
averageScore 5) satisfies the gate, and the equivalence instantiates
there; a 45-iteration all-zero-score contrast-RMS run ends with no
winner. -/
theorem phase2_score_gap_characterization_witness :
    (uniformTracker.length = 9 ∧ allMeetMinimumUsage uniformTracker 7 = true
      ∧ ((phase2Decision uniformTracker).isSome = true
          ↔ restMean uniformTracker + 3.5 < top4Avg uniformTracker)) ∧
    ((∀ i ∈ zeroGateInputs, i.score = 0)
      ∧ (phase2Run 8 (initPhase2State 0) zeroGateInputs).result = none) :=
  ⟨⟨by decide, by decide,
    phase2_score_gap_characterization.1 uniformTracker (by decide) (by decide)⟩,
   ⟨by decide,
    phase2_score_gap_characterization.2 8 0 zeroGateInputs (by decide)⟩⟩

/-- Counterexample for C1 as stated: the wavelet variant declares the
winner (1, 2) on a run whose activation scores are all 0 (the
zeroGateInputs stream) as soon as the minimum-usage gate is reached,
although top4Avg equals restMean, so the score-gap margin is not
exceeded; the survey does not continue past the gate. -/
theorem phase2_wavelet_zero_scores_declare_winner :
    (phase2RunW 8 (initPhase2State 0) zeroGateInputs).result = some (1, 2)
      ∧ top4Avg (phase2RunW 8 (initPhase2State 0) zeroGateInputs).tracker
          = restMean (phase2RunW 8 (initPhase2State 0) zeroGateInputs).tracker := by
  constructor
  · with_unfolding_all decide
  · with_unfolding_all decide

-- ===================================================================
-- C4
-- ===================================================================

/-- C4: for any tracker state realizing the Scenario C score pattern
(electrodes 3 and 5 average 50, all others average 5) in which every
electrode meets the usage minimum, both stopping checks declare the
winning pair (3, 5), with the lower electrode id first. -/
theorem scenarioC_top_pair_is_3_5 :
    ∀ t : Tracker, t.length = 9 →
      (∀ s ∈ t, 9 ≤ s.usage) →
      (statsOf t 3).averageScore = 50 →
      (statsOf t 5).averageScore = 50 →
      (∀ e, 1 ≤ e → e ≤ 9 → e ≠ 3 → e ≠ 5 → (statsOf t e).averageScore = 5) →
      phase2Decision t = some (3, 5) ∧ phase2DecisionW t = some (3, 5) := by
  intro t hlen husage h3 h5 hother
  rcases t with _ | ⟨s1, _ | ⟨s2, _ | ⟨s3, _ | ⟨s4, _ | ⟨s5, _ | ⟨s6, _ | ⟨s7, _ |
    ⟨s8, _ | ⟨s9, _ | ⟨s10, t⟩⟩⟩⟩⟩⟩⟩⟩⟩⟩ <;> simp at hlen
  have e1 : s1.averageScore = 5 := hother 1 (by norm_num) (by norm_num) (by norm_num) (by norm_num)
  have e2 : s2.averageScore = 5 := hother 2 (by norm_num) (by norm_num) (by norm_num) (by norm_num)
  have e3 : s3.averageScore = 50 := h3
  have e4 : s4.averageScore = 5 := hother 4 (by norm_num) (by norm_num) (by norm_num) (by norm_num)
  have e5 : s5.averageScore = 50 := h5
  have e6 : s6.averageScore = 5 := hother 6 (by norm_num) (by norm_num) (by norm_num) (by norm_num)
  have e7 : s7.averageScore = 5 := hother 7 (by norm_num) (by norm_num) (by norm_num) (by norm_num)
  have e8 : s8.averageScore = 5 := hother 8 (by norm_num) (by norm_num) (by norm_num) (by norm_num)
  have e9 : s9.averageScore = 5 := hother 9 (by norm_num) (by norm_num) (by norm_num) (by norm_num)
  have hbase : (trackerEntries [s1, s2, s3, s4, s5, s6, s7, s8, s9]).map
      (fun p => (p.1, p.2.averageScore))
      = [(1, (5 : ℚ)), (2, 5), (3, 50), (4, 5), (5, 50), (6, 5), (7, 5), (8, 5), (9, 5)] := by
    rw [show trackerEntries [s1, s2, s3, s4, s5, s6, s7, s8, s9]
        = [(1, s1), (2, s2), (3, s3), (4, s4), (5, s5), (6, s6), (7, s7), (8, s8), (9, s9)]
      from rfl]
    simp only [List.map]
    rw [e1, e2, e3, e4, e5, e6, e7, e8, e9]
  have hranked : rankedByAverageScore [s1, s2, s3, s4, s5, s6, s7, s8, s9]
      = [(3, (50 : ℚ)), (5, 50), (1, 5), (2, 5), (4, 5), (6, 5), (7, 5), (8, 5), (9, 5)] := by
    unfold rankedByAverageScore
    rw [hbase]
    with_unfolding_all decide
  have hg7 : allMeetMinimumUsage [s1, s2, s3, s4, s5, s6, s7, s8, s9] 7 = true := by
    rw [allMeetMinimumUsage, List.all_eq_true]
    intro x hx
    rw [decide_eq_true_eq]
    exact le_trans (by norm_num) (husage x hx)
  have hg9 : allMeetMinimumUsage [s1, s2, s3, s4, s5, s6, s7, s8, s9] 9 = true := by
    rw [allMeetMinimumUsage, List.all_eq_true]
    intro x hx
    rw [decide_eq_true_eq]
    exact husage x hx
  constructor
  · unfold phase2Decision
    rw [hg7, hranked]
    with_unfolding_all decide
  · unfold phase2DecisionW
    rw [hg9, hranked]
    with_unfolding_all decide

/-- Witness for C4 at the concrete Scenario C tracker. -/
theorem scenarioC_top_pair_is_3_5_witness :
    (scenarioCTracker.length = 9
      ∧ (∀ s ∈ scenarioCTracker, 9 ≤ s.usage)
      ∧ (statsOf scenarioCTracker 3).averageScore = 50
      ∧ (statsOf scenarioCTracker 5).averageScore = 50) ∧
      phase2Decision scenarioCTracker = some (3, 5)
      ∧ phase2DecisionW scenarioCTracker = some (3, 5) :=
  ⟨⟨by decide, by decide, by decide, by decide⟩,
   (scenarioC_top_pair_is_3_5 scenarioCTracker (by decide) (by decide) (by decide) (by decide)
      (by decide)).1,
   (scenarioC_top_pair_is_3_5 scenarioCTracker (by decide) (by decide) (by decide) (by decide)
      (by decide)).2⟩
